import Mathlib

/-!
Verification of the bsky_multitool ingestion and classification pipeline.

This file gives a shallow embedding in Lean 4 of the parts of the
repository that the frozen claims are about:

* `src/bsky_multitool/utils.py`: the record classifier (`get_type`), the
  link filter (`has_link_`, `master_filter`), the retry executor
  (`retry`), the target resolver (`get_target_data`) and the enrichment
  entry point (`finalize_item_processing`), and the batching sink
  (`dump_to_file`, json format).
* `src/bsky_multitool/historical_query.py`: the retry executor with
  exponential backoff (`historicalQuery._retry`) and the historical
  paginator (`historicalQuery.query`) as written, including the two
  keyword/arity faults it ships with: line 223 passes the invalid
  keyword `link_filter` to `utils.master_filter` (a TypeError raised at
  the first non-duplicate record of every non-empty page, caught by the
  blanket handler of line 248, which ends the run), and line 182 passes
  two arguments to the one-parameter `utils.validate_type_filter` (a
  TypeError raised before any network call whenever a non-empty type
  filter is supplied).

Python dictionaries and record payloads are modelled by the inductive
type `JVal`; Python truthiness by `JVal.truthy`.  Remote calls are
modelled by explicit oracles (functions passed as parameters) and the
page responses of the search endpoint by an explicit script of
responses, consumed in order.  Timestamps are modelled by their ISO
string form (normalized UTC ISO-8601 strings compare chronologically
exactly when they compare lexicographically, which is the only use the
code makes of them).
-/

/-- Model of a Python value as stored in the record dictionaries that the
pipeline manipulates (output of `model_dump`).  Only the constructors the
code inspects are needed. -/
inductive JVal where
  | null : JVal
  | bool : Bool → JVal
  | num  : Int → JVal
  | str  : String → JVal
  | arr  : List JVal → JVal
  | obj  : List (String × JVal) → JVal
deriving Repr

/-- Python truthiness of a `JVal`: None, False, 0, empty string, empty
list and empty dict are falsy, everything else is truthy. -/
def JVal.truthy : JVal → Bool
  | .null => false
  | .bool b => b
  | .num n => n != 0
  | .str s => s ≠ ""
  | .arr xs => ¬ xs.isEmpty
  | .obj fs => ¬ fs.isEmpty

/-- Model of `d.get(k)` on a Python dict: the value of the first binding
of the key, or nothing when the key is absent (or the value is not a
dict, which never happens at the call sites the code exercises). -/
def JVal.get : JVal → String → Option JVal
  | .obj fs, k => fs.lookup k
  | _, _ => none

/-- Model of `d.get(k, default)`. -/
def JVal.getD (v : JVal) (k : String) (d : JVal) : JVal :=
  (v.get k).getD d

/-- Model of the Python idiom `d.get(k) or {}`: the value when present
and truthy, the empty dict otherwise. -/
def JVal.getOrEmpty (v : JVal) (k : String) : JVal :=
  match v.get k with
  | some w => if w.truthy then w else .obj []
  | none => .obj []

/-- Model of `d.get(k, '')` followed by string use: the string value when
the key holds a string, the empty string otherwise. -/
def JVal.getStr (v : JVal) (k : String) : String :=
  match v.get k with
  | some (.str s) => s
  | _ => ""

/-- Model of `d.get(k)` when the caller treats the value as a string:
some string when present and a string, nothing otherwise. -/
def JVal.getStrOpt (v : JVal) (k : String) : Option String :=
  match v.get k with
  | some (.str s) => some s
  | _ => none

/-- Model of `bool(d.get(k))`: whether the key is present with a truthy
value. -/
def JVal.getTruthy (v : JVal) (k : String) : Bool :=
  match v.get k with
  | some w => w.truthy
  | none => false

-- ──────────── record classifier: utils.get_type ────────────────────────

/-- Embedding of `utils.get_type` (src/bsky_multitool/utils.py lines
537-565): classifies a record by collection, operation kind and payload
into one of the six action types, returned as the same string literals
the source uses. -/
def get_type (collection : String) (action : String) (record : JVal) : String :=
  if action ≠ "create" then "other"
  else if collection = "app.bsky.feed.post" then
    let embed := record.getOrEmpty "embed"
    let embed_type := embed.getStr "py_type"
    if embed_type = "app.bsky.embed.record" ∨
       embed_type = "app.bsky.embed.recordWithMedia" then "quote"
    else if record.getTruthy "reply" then "reply"
    else "post"
  else if collection = "app.bsky.feed.repost" then "repost"
  else if collection = "app.bsky.feed.like" then "like"
  else "other"

/-- The six action type strings of the data model. -/
def actionTypes : List String :=
  ["post", "reply", "quote", "repost", "like", "other"]

/-- Whether the record carries a quote embed, plain or combined with
media, written from the words of the claim: the embed of the record is
an embedded reference to another record. -/
def hasQuoteEmbed (record : JVal) : Bool :=
  let t := (record.getOrEmpty "embed").getStr "py_type"
  t = "app.bsky.embed.record" ∨ t = "app.bsky.embed.recordWithMedia"

/-- Whether the record carries a non-empty reply reference, written from
the words of the claim. -/
def hasReplyRef (record : JVal) : Bool :=
  record.getTruthy "reply"

/-- Classifier rules as the claim states them, written from the words of
the claim (a second definition, to be compared with `get_type`): any
operation kind other than create gives other; for the post collection a
quote embed gives quote, else a non-empty reply reference gives reply,
else post; the repost collection gives repost; the like collection gives
like; every other collection gives other. -/
def get_type_claim (collection : String) (action : String) (record : JVal) : String :=
  if action ≠ "create" then "other"
  else if collection = "app.bsky.feed.post" then
    if hasQuoteEmbed record then "quote"
    else if hasReplyRef record then "reply"
    else "post"
  else if collection = "app.bsky.feed.repost" then "repost"
  else if collection = "app.bsky.feed.like" then "like"
  else "other"

/-- C4: the record classifier is a deterministic total function of
(collection, operation kind, record) returning one of the six
ActionTypes, and it agrees on every input with the exact rules the claim
states, formalized by `get_type_claim`. -/
theorem get_type_correct (collection action : String) (record : JVal) :
    get_type collection action record = get_type_claim collection action record ∧
    get_type collection action record ∈ actionTypes := by
  have heq : get_type collection action record = get_type_claim collection action record := by
    unfold get_type get_type_claim hasQuoteEmbed hasReplyRef
    repeat' split <;> simp_all
  refine ⟨heq, ?_⟩
  rw [heq]
  unfold get_type_claim actionTypes
  by_cases h1 : action ≠ "create" <;>
  by_cases h2 : collection = "app.bsky.feed.post" <;>
  by_cases h3 : collection = "app.bsky.feed.repost" <;>
  by_cases h4 : collection = "app.bsky.feed.like" <;>
  cases h5 : hasQuoteEmbed record <;>
  cases h6 : hasReplyRef record <;>
  simp_all

-- ──────────── items and the link filter: utils.has_link_ ───────────────

/-- Model of the item dictionaries flowing through the pipeline, with the
keys written by `historicalQuery._convert_post_to_item` plus the
`embedded_urls` key that `has_link_` adds (absent, modelled `none`,
until the link check writes it). -/
structure Item where
  repo          : String
  action        : String
  uri           : String
  cid           : Option JVal
  collection    : String
  path          : String
  record        : JVal
  action_type   : String
  post_data     : Option JVal
  target_data   : Option JVal
  hashtags      : List JVal
  mentions      : List JVal
  embedded_urls : Option (List String)
deriving Repr

/-- Set insertion used to model the Python `set.add` of url strings (the
source accumulates urls in a set; the model keeps first-insertion
order, and the claims only speak about membership). -/
def insertUrl (urls : List String) (u : String) : List String :=
  if u ∈ urls then urls else urls ++ [u]

/-- List of elements of a JVal when it is a list, else empty (model of
iterating `d.get(k, []) or []`). -/
def jItems : JVal → List JVal
  | .arr xs => xs
  | _ => []

/-- Model of the Python `str.startswith` test (defined over the char
lists so that concrete instances reduce in the kernel). -/
def strStartsWith (s pre : String) : Bool := pre.data.isPrefixOf s.data

/-- Embedding of the external-embed branch of `utils.has_link_` (lines
489-493): the embed is truthy, its external member is truthy, and the
uri string of the external member starts with http; in that case that
uri is added. -/
def externalEmbedUrl (record : JVal) : Option String :=
  match record.get "embed" with
  | some embed =>
      if embed.truthy then
        match embed.get "external" with
        | some ext =>
            if ext.truthy then
              if strStartsWith (ext.getStr "uri") "http" then some (ext.getStr "uri")
              else none
            else none
        | none => none
      else none
  | none => none

/-- Embedding of the inner facet loop of `utils.has_link_` (lines
496-500): add every feature uri of the facet that starts with http. -/
def addFeatureUrls (urls : List String) (facet : JVal) : List String :=
  (jItems (facet.getD "features" (.arr []))).foldl
    (fun us feature =>
      if strStartsWith (feature.getStr "uri") "http" then insertUrl us (feature.getStr "uri")
      else us)
    urls

/-- Url set collected by `utils.has_link_` before the emptiness test
(lines 484-501): urls are only collected for create-operation records of
the post collection, first from the external embed, then from the facet
features. -/
def collect_links (item : Item) : List String :=
  if item.collection = "app.bsky.feed.post" ∧ item.action = "create" then
    let record := item.record
    let afterEmbed :=
      match externalEmbedUrl record with
      | some u => insertUrl [] u
      | none => []
    (jItems (record.getD "facets" (.arr []))).foldl addFeatureUrls afterEmbed
  else []

/-- Embedding of `utils.has_link_` (src/bsky_multitool/utils.py lines
484-506).  The source mutates the item in place and returns a bool; the
model returns the bool together with the item after the call. -/
def has_link_ (item : Item) : Bool × Item :=
  let urls := collect_links item
  if urls.isEmpty then (false, item)
  else (true, { item with embedded_urls := some urls })

/-- Embedding of `utils.has_term` (lines 509-513); the compiled regex is
modelled as an opaque predicate on the text of the record. -/
def has_term (pattern : String → Bool) (item : Item) : Bool :=
  pattern (item.record.getStr "text")

/-- Embedding of `utils.master_filter` (lines 516-533).  The source
returns a bool and may mutate the item through `has_link_`; the model
returns the bool together with the item after the call.  Note the source
runs the link check whenever the `has_link` argument is not None,
regardless of its boolean value. -/
def master_filter (item : Item) (filter_term : Option (String → Bool))
    (type_filter : Option (List String)) (has_link : Option Bool) : Bool × Item :=
  if (match type_filter with
      | some tf => decide (item.action_type ∉ tf)
      | none => false) then (false, item)
  else if (match filter_term with
      | some p => ! has_term p item
      | none => false) then (false, item)
  else match has_link with
    | some _ => has_link_ item
    | none => (true, item)

-- ──────────── claim-side description of the discovered urls ────────────

/-- Uri strings sitting in the facet features of a record, written from
the words of the claim. -/
def facetUriList (record : JVal) : List String :=
  ((jItems (record.getD "facets" (.arr []))).map
    (fun facet => (jItems (facet.getD "features" (.arr []))).map
      (fun feature => feature.getStr "uri"))).flatten

/-- Claim-side description of a discovered external url: an http url in
the external embed or in the facet features of a create-operation
post-collection record. -/
def foundUrlSpec (item : Item) (u : String) : Prop :=
  item.collection = "app.bsky.feed.post" ∧ item.action = "create" ∧
  strStartsWith u "http" = true ∧
  (externalEmbedUrl item.record = some u ∨ u ∈ facetUriList item.record)

theorem mem_insertUrl (urls : List String) (u v : String) :
    v ∈ insertUrl urls u ↔ v ∈ urls ∨ v = u := by
  unfold insertUrl
  split
  · rename_i h
    constructor
    · exact fun hv => Or.inl hv
    · rintro (hv | rfl)
      · exact hv
      · exact h
  · simp

theorem mem_addFeatureUrls (facet : JVal) (init : List String) (v : String) :
    v ∈ addFeatureUrls init facet ↔
      v ∈ init ∨ (strStartsWith v "http" = true ∧
        v ∈ (jItems (facet.getD "features" (.arr []))).map (fun f => f.getStr "uri")) := by
  unfold addFeatureUrls
  generalize jItems (facet.getD "features" (.arr [])) = fs
  induction fs generalizing init with
  | nil => simp
  | cons f rest ih =>
      simp only [List.foldl_cons, List.map_cons, List.mem_cons]
      rw [ih]
      split <;> rename_i hsw
      · rw [mem_insertUrl]
        constructor
        · rintro ((h | h) | h)
          · exact Or.inl h
          · subst h; exact Or.inr ⟨hsw, Or.inl rfl⟩
          · exact Or.inr ⟨h.1, Or.inr h.2⟩
        · rintro (h | ⟨hs, (h | h)⟩)
          · exact Or.inl (Or.inl h)
          · subst h; exact Or.inl (Or.inr rfl)
          · exact Or.inr ⟨hs, h⟩
      · constructor
        · rintro (h | h)
          · exact Or.inl h
          · exact Or.inr ⟨h.1, Or.inr h.2⟩
        · rintro (h | ⟨hs, (h | h)⟩)
          · exact Or.inl h
          · subst h; simp_all
          · exact Or.inr ⟨hs, h⟩

theorem mem_facetFold (facets : List JVal) (init : List String) (v : String) :
    v ∈ facets.foldl addFeatureUrls init ↔
      v ∈ init ∨ (strStartsWith v "http" = true ∧
        ∃ facet ∈ facets,
          v ∈ (jItems (facet.getD "features" (.arr []))).map (fun f => f.getStr "uri")) := by
  induction facets generalizing init with
  | nil => simp
  | cons facet rest ih =>
      simp only [List.foldl_cons]
      rw [ih, mem_addFeatureUrls]
      constructor
      · rintro ((h | ⟨hs, h⟩) | ⟨hs, f, hf, h⟩)
        · exact Or.inl h
        · exact Or.inr ⟨hs, facet, by simp, h⟩
        · exact Or.inr ⟨hs, f, by simp [hf], h⟩
      · rintro (h | ⟨hs, f, hf, h⟩)
        · exact Or.inl (Or.inl h)
        · rcases List.mem_cons.mp hf with h1 | h1
          · subst h1; exact Or.inl (Or.inr ⟨hs, h⟩)
          · exact Or.inr ⟨hs, f, h1, h⟩

theorem externalEmbedUrl_startsWith (record : JVal) (u : String)
    (h : externalEmbedUrl record = some u) : strStartsWith u "http" = true := by
  unfold externalEmbedUrl at h
  repeat' split at h <;> simp_all
  obtain ⟨-, -, h3, h4⟩ := h
  exact h4 ▸ h3

/-- C10: the link check returns true exactly when it finds at least one
external url in the external embed or facet features of a
create-operation post-collection record; `collect_links` is the list of
discovered urls, characterized by `foundUrlSpec`; on true, the check
writes that list under the `embedded_urls` key and changes nothing else;
on false, the item is left unmodified. -/
theorem has_link_correct (item : Item) :
    ((has_link_ item).1 = true ↔ ∃ u, foundUrlSpec item u) ∧
    (∀ u, u ∈ collect_links item ↔ foundUrlSpec item u) ∧
    ((has_link_ item).1 = true →
      (has_link_ item).2 = { item with embedded_urls := some (collect_links item) }) ∧
    ((has_link_ item).1 = false → (has_link_ item).2 = item) := by
  have hmem : ∀ u, u ∈ collect_links item ↔ foundUrlSpec item u := by
    intro u
    unfold collect_links foundUrlSpec
    split
    · rename_i hc
      rw [mem_facetFold]
      have hafter : ∀ v : String,
          (v ∈ (match externalEmbedUrl item.record with
                | some w => insertUrl [] w
                | none => ([] : List String))) ↔ externalEmbedUrl item.record = some v := by
        intro v
        split <;> rename_i hx
        · rw [mem_insertUrl]
          simp only [List.not_mem_nil, false_or]
          constructor
          · rintro rfl; exact hx
          · intro h; rw [hx] at h; exact (Option.some_inj.mp h).symm
        · simp [hx]
      rw [hafter]
      have hfacet : (u ∈ facetUriList item.record) ↔
          ∃ facet ∈ jItems (item.record.getD "facets" (.arr [])),
            u ∈ (jItems (facet.getD "features" (.arr []))).map (fun f => f.getStr "uri") := by
        unfold facetUriList
        simp [List.mem_flatten]
      constructor
      · rintro (hx | ⟨hs, hfac⟩)
        · exact ⟨hc.1, hc.2, externalEmbedUrl_startsWith _ _ hx, Or.inl hx⟩
        · exact ⟨hc.1, hc.2, hs, Or.inr (hfacet.mpr hfac)⟩
      · rintro ⟨_, _, hs, (hx | hfac)⟩
        · exact Or.inl hx
        · exact Or.inr ⟨hs, hfacet.mp hfac⟩
    · rename_i hc
      simp only [List.not_mem_nil, false_iff]
      rintro ⟨h1, h2, _, _⟩
      exact hc ⟨h1, h2⟩
  have hex : (∃ u, foundUrlSpec item u) ↔ collect_links item ≠ [] := by
    constructor
    · rintro ⟨u, hu⟩ hnil
      rw [← hmem] at hu
      rw [hnil] at hu
      exact List.not_mem_nil u hu
    · intro hne
      rcases List.exists_mem_of_ne_nil _ hne with ⟨u, hu⟩
      exact ⟨u, (hmem u).mp hu⟩
  by_cases hempty : (collect_links item).isEmpty = true
  · have hl : has_link_ item = (false, item) := by
      simp [has_link_, hempty]
    have hnil : collect_links item = [] := List.isEmpty_iff.mp hempty
    refine ⟨?_, hmem, ?_, ?_⟩
    · rw [hl]
      constructor
      · intro hcontra; exact absurd hcontra (by simp)
      · intro hexu; exact absurd hnil (hex.mp hexu)
    · rw [hl]
      intro hcontra; exact absurd hcontra (by simp)
    · rw [hl]
      intro _; rfl
  · have hl : has_link_ item =
        (true, { item with embedded_urls := some (collect_links item) }) := by
      simp [has_link_, hempty]
    refine ⟨?_, hmem, ?_, ?_⟩
    · rw [hl]
      constructor
      · intro _
        exact hex.mpr (by simpa [List.isEmpty_iff] using hempty)
      · intro _; rfl
    · rw [hl]
      intro _; rfl
    · rw [hl]
      intro hcontra; exact absurd hcontra (by simp)

/-- Concrete item with one facet link, used to witness the link filter
claim. -/
def sampleLinkRecord : JVal := .obj [
  ("py_type", .str "app.bsky.feed.post"),
  ("text", .str "see link"),
  ("facets", .arr [ .obj [("features", .arr [ .obj [("uri", .str "https://example.com")] ])] ])
]

/-- Item wrapper around `sampleLinkRecord`. -/
def sampleLinkItem : Item := {
  repo := "did:plc:alice", action := "create",
  uri := "at://did:plc:alice/app.bsky.feed.post/abc", cid := none,
  collection := "app.bsky.feed.post",
  path := "app.bsky.feed.post/at://did:plc:alice/app.bsky.feed.post/abc",
  record := sampleLinkRecord, action_type := "post",
  post_data := some (.obj []), target_data := none, hashtags := [], mentions := [],
  embedded_urls := none }

/-- Witness for C10 at a concrete item carrying one facet link. -/
theorem has_link_correct_witness :
    (has_link_ sampleLinkItem).1 = true ∧
    (has_link_ sampleLinkItem).2 =
      { sampleLinkItem with embedded_urls := some (collect_links sampleLinkItem) } := by
  have h := has_link_correct sampleLinkItem
  have hfst : (has_link_ sampleLinkItem).1 = true := by rfl
  exact ⟨hfst, h.2.2.1 hfst⟩

-- ──────────── retry executors: utils.retry, historicalQuery._retry ─────

/-- Contiguous-sublist test on char lists, by structural recursion. -/
def listInfixOf (needle : List Char) : List Char → Bool
  | [] => needle.isEmpty
  | c :: rest => needle.isPrefixOf (c :: rest) || listInfixOf needle rest

/-- Model of the Python test of whether str(e) contains the substring
AccountTakedown. -/
def containsTakedown (e : String) : Bool :=
  listInfixOf "AccountTakedown".data e.data

/-- Recursion of `utils.retry` (src/bsky_multitool/utils.py lines
123-139).  The remote call is an oracle giving the outcome of each
attempt, numbered from 0.  Every exception is caught, so the Python
function always returns normally: the model pairs the returned value
(`some v` for a successful call, `none` for the `return None`
fallthrough after the loop or after the account-takedown break) with the
list of delays slept.  The `Except` wrapper records that no path
re-raises; the error constructor is unreachable. -/
def utilRetryGo (method : Nat → Except String α) :
    Nat → Nat → Nat → List Nat → Except String (Option α) × List Nat
  | 0, _, _, sleeps => (.ok none, sleeps)
  | retries+1, delay, i, sleeps =>
    match method i with
    | .ok v => (.ok (some v), sleeps)
    | .error e =>
        if containsTakedown e then (.ok none, sleeps)
        else utilRetryGo method retries (delay * 2) (i+1) (sleeps ++ [delay])

/-- Embedding of `utils.retry`: five attempts, initial delay one second,
delay doubling after every failure. -/
def retry (method : Nat → Except String α) : Except String (Option α) × List Nat :=
  utilRetryGo method 5 1 0 []

/-- Recursion of `historicalQuery._retry`
(src/bsky_multitool/historical_query.py lines 59-91).  The call is an
oracle giving the outcome of each attempt, numbered from 1 as in the
source.  The result is `some (.ok v)` for a success, `some (.error e)`
when the final attempt fails and the exception propagates to the caller,
and `none` for the implicit `return None` when the loop body never runs;
it is paired with the number of backoff sleeps performed (the sleep
durations carry random jitter and are not part of the claims). -/
def hqRetryGo (fn : Nat → Except String α) (retries : Nat) :
    Nat → Nat → Nat → Option (Except String α) × Nat
  | 0, _, slept => (none, slept)
  | fuel+1, attempt, slept =>
    if attempt > retries then (none, slept)
    else match fn attempt with
      | .ok v => (some (.ok v), slept)
      | .error e =>
          if attempt = retries then (some (.error e), slept)
          else hqRetryGo fn retries fuel (attempt+1) (slept+1)

/-- Embedding of `historicalQuery._retry` at its default parameters
(retries = 5), which are the ones `historicalQuery.query` uses. -/
def hq_retry (fn : Nat → Except String α) : Option (Except String α) × Nat :=
  hqRetryGo fn 5 6 1 0

/-- C6 counterexample: a call that fails on all attempts makes
`utils.retry` return the non-error value None after its five backoff
sleeps; no exception propagates, refuting the claim for this executor
(which the claim sources cite). -/
theorem retry_exhaustion_counterexample :
    retry (fun _ => (.error "boom" : Except String Unit)) = (.ok none, [1, 2, 4, 8, 16]) := by
  rfl

/-- C6 amended: `historicalQuery._retry` propagates the final exception
after all five attempts fail (with four intervening sleeps), while
`utils.retry` swallows the failure and returns None after its five
sleeps; and a call failing k < 5 times before succeeding returns the
success result from either executor after exactly k sleeps
(`utils.retry` with delays 1, 2, ..., 2 ^ (k-1)). -/
theorem retry_amended (α : Type) (fn g g2 : Nat → Except String α)
    (e : Nat → String) (k : Nat) (v : α)
    (hnotd : ∀ i, containsTakedown (e i) = false)
    (hfa : ∀ i, fn i = .error (e i))
    (hk : k < 5)
    (hg1 : ∀ i, 1 ≤ i → i ≤ k → g i = .error (e i))
    (hgk : g (k+1) = .ok v)
    (hg0 : ∀ i, i < k → g2 i = .error (e i))
    (hg2k : g2 k = .ok v) :
    hq_retry fn = (some (.error (e 5)), 4) ∧
    retry fn = (.ok none, [1, 2, 4, 8, 16]) ∧
    hq_retry g = (some (.ok v), k) ∧
    retry g2 = (.ok (some v), (List.range k).map (fun i => 2 ^ i)) := by
  refine ⟨?_, ?_, ?_, ?_⟩
  · simp [hq_retry, hqRetryGo, hfa, hnotd]
  · simp [retry, utilRetryGo, hfa, hnotd]
  · interval_cases k <;>
      simp_all [hq_retry, hqRetryGo]
  · interval_cases k <;>
      simp_all [retry, utilRetryGo, List.range_succ]

/-- C7 counterexample: on an account-takedown error, `utils.retry` stops
immediately with no sleep, but returns the non-error value None instead
of propagating the error, refuting the claim. -/
theorem retry_takedown_counterexample :
    retry (fun _ => (.error "AccountTakedown" : Except String Unit)) = (.ok none, []) := by
  rfl

/-- C7 amended: on an error whose text contains AccountTakedown,
`utils.retry` stops immediately — no further attempt, no backoff sleep —
but swallows the error and returns None rather than propagating it;
`historicalQuery._retry` has no special handling for such errors and
retries them with backoff like any other, propagating the error only
after the final attempt. -/
theorem retry_takedown_amended (α : Type) (fn fn2 : Nat → Except String α) (e : String)
    (he : containsTakedown e = true) (h0 : fn 0 = .error e)
    (hall : ∀ i, fn2 i = .error e) :
    retry fn = (.ok none, []) ∧ hq_retry fn2 = (some (.error e), 4) := by
  constructor
  · simp [retry, utilRetryGo, h0, he]
  · simp [hq_retry, hqRetryGo, hall]

/-- Witness for the amended C6 at concrete call scripts. -/
theorem retry_amended_witness :
    hq_retry (fun _ => (.error "e" : Except String Nat)) = (some (.error "e"), 4) ∧
    retry (fun _ => (.error "e" : Except String Nat)) = (.ok none, [1, 2, 4, 8, 16]) ∧
    hq_retry (fun i => if i ≤ 2 then (.error "e" : Except String Nat) else .ok 42) =
      (some (.ok 42), 2) ∧
    retry (fun i => if i < 2 then (.error "e" : Except String Nat) else .ok 42) =
      (.ok (some 42), (List.range 2).map (fun i => 2 ^ i)) := by
  exact retry_amended Nat (fun _ => .error "e")
    (fun i => if i ≤ 2 then .error "e" else .ok 42)
    (fun i => if i < 2 then .error "e" else .ok 42)
    (fun _ => "e") 2 42
    (fun _ => rfl) (fun _ => rfl) (by norm_num)
    (fun i _ h2 => by simp [h2]) (by rfl)
    (fun i hi => by simp [hi]) (by rfl)

/-- Witness for the amended C7 at a concrete account-takedown error. -/
theorem retry_takedown_amended_witness :
    retry (fun _ => (.error "AccountTakedown applied" : Except String Nat)) = (.ok none, []) ∧
    hq_retry (fun _ => (.error "AccountTakedown applied" : Except String Nat)) =
      (some (.error "AccountTakedown applied"), 4) := by
  exact retry_takedown_amended Nat (fun _ => .error "AccountTakedown applied")
    (fun _ => .error "AccountTakedown applied") "AccountTakedown applied"
    (by rfl) rfl (fun _ => rfl)

-- ──────────── target resolver and enrichment: utils.py ─────────────────

/-- Model of the regex search for `(did:[^/]+)` over the char list of a
uri: the first occurrence of `did:` followed by at least one non-slash
character, taken maximally. -/
def didSearch : List Char → Option String
  | [] => none
  | c :: rest =>
      if ['d', 'i', 'd', ':'].isPrefixOf (c :: rest) then
        let run := ((c :: rest).drop 4).takeWhile (fun ch => ch ≠ '/')
        if run.isEmpty then didSearch rest
        else some (String.mk (['d', 'i', 'd', ':'] ++ run))
      else didSearch rest

/-- Model of `re.search(r'(did:[^/]+)', uri)` with `.group(1)`. -/
def didOf (uri : String) : Option String := didSearch uri.data

/-- Match of the pattern `at://[^/]+/[^/]+/([^/]+)` anchored at the head
of the char list, returning the third segment. -/
def rkeyAt (cs : List Char) : Option String :=
  if "at://".data.isPrefixOf cs then
    let rest1 := cs.drop 5
    let seg1 := rest1.takeWhile (fun ch => ch ≠ '/')
    if seg1.isEmpty then none
    else match rest1.drop seg1.length with
      | '/' :: rest2 =>
          let seg2 := rest2.takeWhile (fun ch => ch ≠ '/')
          if seg2.isEmpty then none
          else match rest2.drop seg2.length with
            | '/' :: rest3 =>
                let seg3 := rest3.takeWhile (fun ch => ch ≠ '/')
                if seg3.isEmpty then none else some (String.mk seg3)
            | _ => none
      | _ => none
  else none

/-- Scan for the first position where `rkeyAt` matches. -/
def rkeySearch : List Char → Option String
  | [] => none
  | c :: rest =>
      match rkeyAt (c :: rest) with
      | some r => some r
      | none => rkeySearch rest

/-- Model of `re.search(r'at://[^/]+/[^/]+/([^/]+)', uri)` with
`.group(1)`, as used by `utils.get_post_url` and
`historicalQuery._convert_post_to_item`; nothing models the
AttributeError raised when the pattern does not match. -/
def rkeyOf (uri : String) : Option String := rkeySearch uri.data

/-- Python `str()` of the scalar values that reach the f-strings of the
model (a missing handle prints as None). -/
def pyStrV : JVal → String
  | .str s => s
  | .null => "None"
  | .bool b => if b then "True" else "False"
  | .num n => toString n
  | _ => ""

/-- Embedding of `utils.get_post_url` (lines 333-337): nothing when the
rkey regex does not match (the AttributeError the caller sees). -/
def get_post_url (handle : JVal) (uri : String) : Option String :=
  (rkeyOf uri).map (fun rkey => "bsky.app/profile/" ++ pyStrV handle ++ "/post/" ++ rkey)

/-- Dict update of one key (Python `d[k] = w` inside `.update`). -/
def objSet : JVal → String → JVal → JVal
  | .obj fs, k, w => .obj ((fs.filter (fun p => p.1 ≠ k)) ++ [(k, w)])
  | v, _, _ => v

/-- Dict update over a key-value list (Python `d.update({...})`). -/
def objSets (v : JVal) (kvs : List (String × JVal)) : JVal :=
  kvs.foldl (fun a p => objSet a p.1 p.2) v

/-- Dict key removal (Python `d.pop(k, None)`). -/
def objRemove : JVal → String → JVal
  | .obj fs, k => .obj (fs.filter (fun p => p.1 ≠ k))
  | v, _ => v

/-- Model of the idiom `x or {}` on a value. -/
def pyOrEmptyObj (v : JVal) : JVal := if v.truthy then v else .obj []

/-- Model of the idiom `x or []` on a value. -/
def pyOrEmptyArr (v : JVal) : JVal := if v.truthy then v else .arr []

/-- Embedding of `utils.get_hashtags` (lines 340-348): the tag values of
the facet features of the record of the fetched post payload. -/
def get_hashtags (post_data : JVal) : List JVal :=
  let record := pyOrEmptyObj (post_data.getD "record" (.obj []))
  let facets := jItems (pyOrEmptyArr (record.getD "facets" .null))
  (facets.map (fun facet =>
    (jItems (facet.getD "features" (.arr []))).filterMap (fun f => f.get "tag"))).flatten

/-- Embedding of `utils.get_mentions` (lines 351-359). -/
def get_mentions (post_data : JVal) : List JVal :=
  let record := pyOrEmptyObj (post_data.getD "record" (.obj []))
  let facets := jItems (pyOrEmptyArr (record.getD "facets" .null))
  (facets.map (fun facet =>
    (jItems (facet.getD "features" (.arr []))).filterMap (fun f => f.get "did"))).flatten

/-- Referenced-record address extracted by `utils.get_target_data`
(lines 173-190), by action type: repost and like read the subject, quote
reads the embedded record reference (possibly nested under a media
wrapper), reply reads the root of the reply thread. -/
def targetUriVal (item : Item) : Option JVal :=
  if item.action_type = "repost" then (item.record.getD "subject" (.obj [])).get "uri"
  else if item.action_type = "quote" then
    let embed := item.record.getOrEmpty "embed"
    let etype := embed.getStr "py_type"
    if etype = "app.bsky.embed.recordWithMedia" then
      ((embed.getD "record" (.obj [])).getD "record" (.obj [])).get "uri"
    else if etype = "app.bsky.embed.record" then
      (embed.getD "record" (.obj [])).get "uri"
    else none
  else if item.action_type = "reply" then
    ((item.record.getD "reply" (.obj [])).getD "root" (.obj [])).get "uri"
  else if item.action_type = "like" then
    (item.record.getD "subject" (.obj [])).get "uri"
  else none

/-- Address string after the falsy test `if not target_uri` of
`utils.get_target_data` (line 192): a non-empty string, else nothing
(address values are strings in the data domain). -/
def targetUriStr (item : Item) : Option String :=
  match targetUriVal item with
  | some (.str s) => if s = "" then none else some s
  | _ => none

/-- Embedding of `utils.get_target_data` (lines 168-219).  The post and
author lookups are oracles; an oracle answer of `none` models a raised
fetch exception (every exception inside the function body is caught and
turned into a None result).  A `none` result is the Python None target:
missing or falsy referenced address, falsy fetched post, raised post or
author fetch, a non-dict record payload (whose update raises), or a
referenced address the rkey regex cannot parse. -/
def get_target_data (getPost getAuthor : String → Option JVal) (item : Item) : Option JVal :=
  match targetUriStr item with
  | none => none
  | some target_uri =>
    match getPost target_uri with
    | none => none
    | some pd =>
      if pd.truthy then
        match pd.getD "record" (.obj []) with
        | .obj post_rec =>
          match (match didOf target_uri with
                 | some d => getAuthor d
                 | none => some (.obj [])) with
          | none => none
          | some author_data =>
            match get_post_url (author_data.getD "handle" .null) target_uri with
            | none => none
            | some post_url =>
              some (.obj
                [("post_data", objSets (.obj post_rec)
                    [("uri", .str target_uri), ("post_url", .str post_url)]),
                 ("author_data", author_data)])
        | _ => none
      else none

/-- Output dict of `utils.structure_item`: resolved author data, the
promoted post payload, and the target data carried through unchanged. -/
structure FinalRecord where
  author_data : JVal
  post_data   : JVal
  target_data : Option JVal
deriving Repr

/-- Embedding of `utils.structure_item` (lines 362-393).  Errors model
the uncaught exceptions of the source: a missing handle key on the
author payload, a missing or non-string uri on the fetched post, an rkey
regex failure, and a dict update on a non-dict post payload. -/
def structure_item (item : Item) (author_data post_data : JVal) :
    Except String FinalRecord :=
  let pd0 := match item.post_data with
    | some p => p
    | none => post_data
  match author_data.get "handle" with
  | none => .error "KeyError: handle"
  | some hv =>
    match post_data.getStrOpt "uri" with
    | none => .error "TypeError: rkey search on a non-string"
    | some puri =>
      match get_post_url hv puri with
      | none => .error "AttributeError: rkey pattern unmatched"
      | some post_url =>
        match pd0 with
        | .obj _ =>
          let pd1 := objSets pd0
            [("created_at", item.record.getD "created_at" .null),
             ("post_url", .str post_url),
             ("embedded_urls", match item.embedded_urls with
                | some us => .arr (us.map .str)
                | none => .null),
             ("mentions", .arr item.mentions),
             ("hashtags", .arr item.hashtags),
             ("action_type", .str item.action_type),
             ("collection", .str item.collection),
             ("path", .str item.path),
             ("action", .str item.action)]
          .ok { author_data := author_data,
                post_data := objRemove pd1 "author",
                target_data := item.target_data }
        | _ => .error "AttributeError: update on a non-dict"

/-- The four reference-bearing action types, in source order. -/
def refActionTypes : List String := ["quote", "repost", "reply", "like"]

/-- Hashtag and mention assignment of `utils.finalize_item_processing`
(lines 404-405). -/
def enrichItem (post_data : JVal) (item : Item) : Item :=
  { item with hashtags := get_hashtags post_data, mentions := get_mentions post_data }

/-- Embedding of `utils.finalize_item_processing` (lines 396-414).  The
two oracles model the cached author and post fetchers; an oracle answer
of `none` models a raised fetch exception, which this function does not
catch when fetching the own author and post of the record (only the
target resolver catches them). -/
def finalize_item_processing (getAuthor getPost : String → Option JVal)
    (item : Item) : Except String FinalRecord :=
  match getAuthor item.repo with
  | none => .error "author lookup raised"
  | some author_data =>
    match getPost item.uri with
    | none => .error "post lookup raised"
    | some post_data =>
      let item1 := enrichItem post_data item
      let item2 :=
        if item1.action_type ∈ refActionTypes then
          { item1 with target_data := get_target_data getPost getAuthor item1 }
        else
          { item1 with target_data := none }
      structure_item item2 author_data post_data

/-- Success of target resolution, read off the failure points of
`utils.get_target_data`: a present, truthy referenced address whose
post fetch returns a truthy payload with a dict record, whose author
fetch (when the address carries a did) does not raise, and whose address
the rkey regex parses. -/
def target_resolution_ok (getPost getAuthor : String → Option JVal) (item : Item) : Prop :=
  ∃ turi, targetUriStr item = some turi ∧
    (∃ pd, getPost turi = some pd ∧ pd.truthy = true ∧
      ∃ gs, pd.getD "record" (.obj []) = .obj gs) ∧
    (∀ d, didOf turi = some d → getAuthor d ≠ none) ∧
    rkeyOf turi ≠ none

theorem get_post_url_isSome (h : JVal) (uri : String) (hrk : rkeyOf uri ≠ none) :
    ∃ u, get_post_url h uri = some u := by
  unfold get_post_url
  match hr : rkeyOf uri with
  | none => exact absurd hr hrk
  | some r => exact ⟨_, rfl⟩

theorem get_target_data_ne_none_iff (getPost getAuthor : String → Option JVal)
    (item : Item) :
    get_target_data getPost getAuthor item ≠ none ↔
      target_resolution_ok getPost getAuthor item := by
  unfold get_target_data target_resolution_ok
  constructor
  · intro h
    match hu : targetUriStr item with
    | none => rw [hu] at h; exact absurd rfl h
    | some turi =>
      rw [hu] at h
      dsimp only at h
      refine ⟨turi, rfl, ?_⟩
      match hp : getPost turi with
      | none => rw [hp] at h; exact absurd rfl h
      | some pd =>
        rw [hp] at h
        dsimp only at h
        by_cases htr : pd.truthy = true
        · rw [if_pos htr] at h
          match hrec : pd.getD "record" (.obj []) with
          | .obj gs =>
            rw [hrec] at h
            dsimp only at h
            refine ⟨⟨pd, rfl, htr, gs, hrec⟩, ?_, ?_⟩
            · intro d hd hga
              rw [hd] at h
              dsimp only at h
              rw [hga] at h
              exact absurd rfl h
            · intro hrk
              match hd : didOf turi with
              | none =>
                  rw [hd] at h
                  dsimp only at h
                  unfold get_post_url at h
                  rw [hrk] at h
                  exact absurd rfl h
              | some d =>
                  rw [hd] at h
                  dsimp only at h
                  match hga : getAuthor d with
                  | none => rw [hga] at h; exact absurd rfl h
                  | some author_data =>
                      rw [hga] at h
                      dsimp only at h
                      unfold get_post_url at h
                      rw [hrk] at h
                      exact absurd rfl h
          | .null => rw [hrec] at h; exact absurd rfl h
          | .bool b => rw [hrec] at h; exact absurd rfl h
          | .num n => rw [hrec] at h; exact absurd rfl h
          | .str s => rw [hrec] at h; exact absurd rfl h
          | .arr xs => rw [hrec] at h; exact absurd rfl h
        · rw [if_neg htr] at h
          exact absurd rfl h
  · rintro ⟨turi, hu, ⟨pd, hp, htr, gs, hrec⟩, hga, hrk⟩
    rw [hu]
    dsimp only
    rw [hp]
    dsimp only
    rw [if_pos htr, hrec]
    dsimp only
    match hd : didOf turi with
    | none =>
        dsimp only
        obtain ⟨u, hpu⟩ := get_post_url_isSome ((JVal.obj []).getD "handle" .null) turi hrk
        rw [hpu]
        simp
    | some d =>
        dsimp only
        match hga2 : getAuthor d with
        | none => exact absurd hga2 (hga d hd)
        | some author_data =>
            dsimp only
            obtain ⟨u, hpu⟩ := get_post_url_isSome (author_data.getD "handle" .null) turi hrk
            rw [hpu]
            simp

theorem structure_item_target_swap (item : Item) (ad pd : JVal) (t : Option JVal) :
    structure_item { item with target_data := t } ad pd =
      (structure_item item ad pd).map
        (fun fr => { fr with target_data := t }) := by
  unfold structure_item
  dsimp only
  repeat' split
  all_goals rfl

theorem structure_item_ok_target (item : Item) (ad pd : JVal) (fr : FinalRecord)
    (h : structure_item item ad pd = .ok fr) : fr.target_data = item.target_data := by
  unfold structure_item at h
  dsimp only at h
  repeat' split at h
  all_goals cases h
  all_goals rfl

/-- C9: whenever enrichment of a record completes (returns a structured
record rather than raising), its target data is non-null exactly when
the action type is one of quote, repost, reply, like and target
resolution succeeded (`target_resolution_ok`, the failure points of
`get_target_data`: missing or falsy referenced address, raised or falsy
referenced-post fetch, raised referenced-author fetch, unparsable
address); moreover a resolution failure never fails the record: whether
enrichment completes does not depend on the oracles beyond the
own-record author and post lookups. -/
theorem finalize_target_correct (getPost getAuthor : String → Option JVal)
    (item : Item) (out : FinalRecord)
    (hout : finalize_item_processing getAuthor getPost item = .ok out) :
    (out.target_data ≠ none ↔
      item.action_type ∈ refActionTypes ∧
        target_resolution_ok getPost getAuthor item) ∧
    (∀ gp2 ga2 : String → Option JVal,
      ga2 item.repo = getAuthor item.repo → gp2 item.uri = getPost item.uri →
      ∃ out2, finalize_item_processing ga2 gp2 item = .ok out2) := by
  unfold finalize_item_processing at hout
  match hA : getAuthor item.repo with
  | none => rw [hA] at hout; cases hout
  | some ad =>
    rw [hA] at hout
    dsimp only at hout
    match hP : getPost item.uri with
    | none => rw [hP] at hout; cases hout
    | some pdv =>
      rw [hP] at hout
      dsimp only at hout
      constructor
      · have htd := structure_item_ok_target _ ad pdv out hout
        by_cases hmem : item.action_type ∈ refActionTypes
        · have hmem1 : (enrichItem pdv item).action_type ∈ refActionTypes := hmem
          rw [if_pos hmem1] at htd
          dsimp only at htd
          have hsame : get_target_data getPost getAuthor (enrichItem pdv item) =
              get_target_data getPost getAuthor item := rfl
          rw [hsame] at htd
          rw [htd]
          constructor
          · intro hne
            exact ⟨hmem, (get_target_data_ne_none_iff getPost getAuthor item).mp hne⟩
          · rintro ⟨-, hok⟩
            exact (get_target_data_ne_none_iff getPost getAuthor item).mpr hok
        · have hmem1 : ¬ (enrichItem pdv item).action_type ∈ refActionTypes := hmem
          rw [if_neg hmem1] at htd
          dsimp only at htd
          rw [htd]
          constructor
          · intro hne; exact absurd rfl hne
          · rintro ⟨hm, -⟩; exact absurd hm hmem
      · intro gp2 ga2 hga hgp
        unfold finalize_item_processing
        rw [hga]
        dsimp only
        rw [hgp]
        dsimp only
        by_cases hmem : (enrichItem pdv item).action_type ∈ refActionTypes
        · rw [if_pos hmem] at hout ⊢
          have hswap := structure_item_target_swap
            { enrichItem pdv item with
                target_data := get_target_data getPost getAuthor (enrichItem pdv item) }
            ad pdv
            (get_target_data gp2 ga2 (enrichItem pdv item))
          have hbase :
              ({ enrichItem pdv item with
                  target_data := get_target_data gp2 ga2 (enrichItem pdv item) } : Item) =
              { ({ enrichItem pdv item with
                  target_data := get_target_data getPost getAuthor (enrichItem pdv item) } : Item) with
                  target_data := get_target_data gp2 ga2 (enrichItem pdv item) } := rfl
          rw [hbase, hswap, hout]
          exact ⟨_, rfl⟩
        · rw [if_neg hmem] at hout ⊢
          exact ⟨out, hout⟩

/-- Concrete quote item used to witness the enrichment claim. -/
def c9item : Item := {
  repo := "did:plc:alice", action := "create",
  uri := "at://did:plc:alice/app.bsky.feed.post/abc", cid := none,
  collection := "app.bsky.feed.post",
  path := "app.bsky.feed.post/at://did:plc:alice/app.bsky.feed.post/abc",
  record := .obj [
    ("py_type", .str "app.bsky.feed.post"),
    ("created_at", .str "2024-01-01T00:00:00Z"),
    ("embed", .obj [
      ("py_type", .str "app.bsky.embed.record"),
      ("record", .obj [("uri", .str "at://did:plc:bob/app.bsky.feed.post/xyz")])])],
  action_type := "quote",
  post_data := some (.obj []), target_data := none, hashtags := [], mentions := [],
  embedded_urls := none }

/-- Concrete author oracle for the enrichment witness. -/
def c9getAuthor : String → Option JVal := fun d =>
  if d = "did:plc:alice" then some (.obj [("handle", .str "alice.bsky")])
  else if d = "did:plc:bob" then some (.obj [("handle", .str "bob.bsky")])
  else none

/-- Concrete post oracle for the enrichment witness. -/
def c9getPost : String → Option JVal := fun u =>
  if u = "at://did:plc:alice/app.bsky.feed.post/abc" then
    some (.obj [("uri", .str "at://did:plc:alice/app.bsky.feed.post/abc"), ("record", .obj [])])
  else if u = "at://did:plc:bob/app.bsky.feed.post/xyz" then
    some (.obj [("record", .obj [("text", .str "hi")])])
  else none

/-- Enrichment output at the concrete witness input. -/
def c9out : FinalRecord :=
  (finalize_item_processing c9getAuthor c9getPost c9item).toOption.getD ⟨.null, .null, none⟩

/-- Witness for C9 at a concrete quote record whose target resolves. -/
theorem finalize_target_correct_witness :
    c9out.target_data ≠ none ↔
      c9item.action_type ∈ refActionTypes ∧
        target_resolution_ok c9getPost c9getAuthor c9item :=
  (finalize_target_correct c9getPost c9getAuthor c9item c9out (by rfl)).1

-- ──────────── historical paginator: historicalQuery.query ──────────────

/-- Model of Python `str.strip`, structurally over the char list. -/
def pyStrip (s : String) : String :=
  String.mk (((s.data.dropWhile Char.isWhitespace).reverse.dropWhile Char.isWhitespace).reverse)

/-- Lexicographic strict comparison of char lists, structurally. -/
def strLtB : List Char → List Char → Bool
  | [], [] => false
  | [], _ :: _ => true
  | _ :: _, [] => false
  | a :: as, b :: bs =>
      if a.val < b.val then true
      else if b.val < a.val then false
      else strLtB as bs

/-- Comparison of two normalized timestamps, represented by their ISO
strings: on the equal-length UTC ISO form the lexicographic order is
the chronological order that the datetime comparison of the source
uses. -/
def strLt (s t : String) : Bool := strLtB s.data t.data

/-- Page request parameters as assembled in the loop body of
`historicalQuery.query` (lines 201-208): the query string with optional
since and until qualifiers, the page size, and the cursor when one is
truthy. -/
structure Request where
  q      : String
  limit  : Nat
  cursor : Option String
deriving Repr, DecidableEq

/-- Search response: the posts of the page (each a full post payload)
and the optional next cursor.  The script entry `none` models a falsy
response object. -/
structure Response where
  posts  : List JVal
  cursor : Option String
deriving Repr

/-- Truthiness of the optional strings that the query builder tests. -/
def optTruthy : Option String → Bool
  | some s => s ≠ ""
  | none => false

/-- Query string assembly of lines 201-205.  Normalized datetimes are
represented by their ISO strings (the source interpolates either a
parsed datetime or, after a backfill, the created_at string of a record;
both are truthy and format into the qualifier). -/
def buildQ (stripped : String) (since untilArg : Option String) : String :=
  stripped
  ++ (match since with
      | some s => if s ≠ "" then " since:" ++ s else ""
      | none => "")
  ++ (match untilArg with
      | some u => if u ≠ "" then " until:" ++ u else ""
      | none => "")

/-- Loop state of `historicalQuery.query`: the cursor, the two time
qualifiers, the stop flag of line 191 (its only assignment, line 229,
sits behind the raising filter call and is unreachable, so it stays
false), a crashed flag modelling an exception unwinding to the blanket
handler of line 248 (which ends the run and keeps the results collected
so far), the dedup set, the item counter, the sink contents, the page
size, the `item` local of the for loop (which survives across pages in
Python function scope), and the log of issued page requests. -/
structure QState where
  cursor   : Option String
  sinceF   : Option String
  untilF   : Option String
  stop     : Bool
  crashed  : Bool
  seen     : List String
  count    : Nat
  results  : List Item
  limit    : Nat
  lastItem : Option Item
  reqs     : List Request
deriving Repr

/-- Request built at the top of each loop iteration (lines 201-208). -/
def buildRequest (stripped : String) (s : QState) : Request :=
  { q := buildQ stripped s.sinceF s.untilF
    limit := s.limit
    cursor := if optTruthy s.cursor then s.cursor else none }

/-- Embedding of `historicalQuery._convert_post_to_item` (lines 94-109).
The rkey computed on line 97 is unused by the source and is not
modelled (well-formed post uris always match its pattern). -/
def _convert_post_to_item (post_data : JVal) : Item :=
  let uri := post_data.getStr "uri"
  let record := post_data.getD "record" .null
  let collection := match record.getStrOpt "py_type" with
    | some s => s
    | none => "None"
  { repo := (post_data.getD "author" (.obj [])).getStr "did"
    action := "create"
    uri := uri
    cid := record.get "cid"
    collection := collection
    path := collection ++ "/" ++ uri
    record := record
    action_type := get_type collection "create" record
    post_data := some post_data
    target_data := none
    hashtags := []
    mentions := []
    embedded_urls := none }

/-- Embedding of the for loop over the posts of one page (lines
214-230).  A post whose uri is already in the dedup set is skipped
(lines 217-218).  For a non-duplicate post the source adds the uri to
the dedup set (line 219), converts the post (line 221), and then calls
`master_filter(item, link_filter=link_filter, type_filter=type_filter)`
(line 223); `utils.master_filter` (utils.py line 516) has no
`link_filter` parameter, so this call raises TypeError unconditionally,
whatever the argument values: the filter decision, the handling of line
225 and the max-items stop of lines 227-230 are unreachable, and no
record is ever accepted.  The raise is modelled by the crashed flag. -/
def processPosts : List JVal → QState → QState
  | [], s => s
  | post :: rest, s =>
      let uri := post.getStr "uri"
      if uri ∈ s.seen then processPosts rest s
      else
        { s with
          crashed := true,
          seen := uri :: s.seen,
          lastItem := some (_convert_post_to_item post) }

/-- Embedding of one loop iteration after a non-empty page was fetched
(lines 214-241).  When the for loop raised — which happens at the first
non-duplicate post of the page — the lines after it never run and the
exception unwinds to the handler of line 248.  When it completed (every
post of the page already seen, a state no run from the initial state
can reach because the very first converted record already raises),
lines 232-241 store the new cursor, switch to the until backfill when
the cursor is gone (using the created_at of the `item` local, with the
uncaught NameError and KeyError of line 236 also modelled as a crash),
and clamp the page size to the remaining budget; they are embedded as
written. -/
def stepPage (mi : Option Nat) (s : QState) (r : Response) : QState :=
  let s1 := processPosts r.posts s
  if s1.crashed then s1
  else if s1.stop then s1
  else
    let s2 : QState := { s1 with cursor := r.cursor }
    let s3 : QState :=
      match r.cursor with
      | none =>
          match s2.lastItem with
          | some it =>
              match it.record.get "created_at" with
              | some v => { s2 with untilF := some (pyStrV v) }
              | none => { s2 with crashed := true }
          | none => { s2 with crashed := true }
      | some _ => s2
    match mi with
    | some n =>
        if n ≠ 0 ∧ n - s3.count < 100 then { s3 with limit := n - s3.count }
        else s3
    | none => s3

/-- Embedding of the while loop of `historicalQuery.query` (lines
197-241), driven by a fuel bound and a script of page responses consumed
in order (the response does not depend on the request; the request
actually issued is logged in the state).  A script entry of `none`, a
page without posts, or an exhausted script ends the loop as the break of
lines 211-212 does; a crashed state — the exception caught by the
line-248 handler — ends the loop with whatever was collected, which is
always nothing, since the crash precedes every acceptance. -/
def runPages (stripped : String) (mi : Option Nat) :
    Nat → List (Option Response) → QState → QState
  | 0, _, s => s
  | fuel+1, script, s =>
    if s.crashed then s
    else if s.stop then s
    else
      let s1 : QState := { s with reqs := s.reqs ++ [buildRequest stripped s] }
      match script with
      | [] => s1
      | none :: _ => s1
      | some r :: rest =>
          if r.posts.isEmpty then s1
          else runPages stripped mi fuel rest (stepPage mi s1 r)

/-- Initial page size of line 192. -/
def initLimit (mi : Option Nat) : Nat :=
  match mi with
  | some n => if n ≠ 0 then min 100 n else 100
  | none => 100

/-- State at the top of the loop (lines 190-195). -/
def initState (since untilArg : Option String) (mi : Option Nat) : QState :=
  { cursor := none, sinceF := since, untilF := untilArg, stop := false,
    crashed := false, seen := [], count := 0, results := [],
    limit := initLimit mi, lastItem := none, reqs := [] }

/-- Embedding of the bounds check of lines 173-178: both qualifiers
supplied (truthy) and since greater than until raises a ValueError
before the loop.  Modelled from the spec: the missing
`normalize_timestamp` helper (imported by the source but absent from
utils.py, whose `normalize_cutoff_time` is its counterpart) returns
timezone-normalized datetimes; they are represented here by ISO strings,
whose lexicographic order is the chronological order the datetime
comparison of line 173 uses. -/
def checkBounds (since untilArg : Option String) : Except String Unit :=
  match since, untilArg with
  | some s, some u =>
      if s ≠ "" ∧ u ≠ "" ∧ strLt u s = true then
        .error ("ValueError: since (" ++ s ++ ") must be < until (" ++ u ++ ")")
      else .ok ()
  | _, _ => .ok ()

/-- Truthiness of the optional type-filter list (`if type_filter:`,
line 180). -/
def typeFilterTruthy : Option (List String) → Bool
  | some tf => ¬ tf.isEmpty
  | none => false

/-- Embedding of `historicalQuery.query` (lines 136-254): validate the
bounds (line 173); then, when a truthy type filter is supplied, line
182 calls `validate_type_filter(type_filter, 'historical')` with two
arguments although `utils.validate_type_filter` (utils.py line 84)
takes one, raising a TypeError that is re-raised to the caller before
any network call; otherwise enter the pagination loop on the stripped
query term.  The link_filter argument is only carried to the dead
filter call of line 223 and affects nothing. -/
def query (query_term : String) (type_filter : Option (List String))
    (link_filter : Bool) (mi : Option Nat) (since untilArg : Option String)
    (fuel : Nat) (script : List (Option Response)) : Except String QState :=
  match checkBounds since untilArg with
  | .error e => .error e
  | .ok _ =>
      if typeFilterTruthy type_filter then
        .error "TypeError: validate_type_filter() takes 1 positional argument but 2 were given"
      else
        .ok (runPages (pyStrip query_term) mi fuel script (initState since untilArg mi))

/-- C8 counterexample: with since and until both equal, the request is
accepted (no error) and a page request is issued — the code only rejects
since strictly greater than until, so equality is not rejected as the
claim demands.  The run then breaks on the falsy response without ever
entering the per-record loop. -/
theorem query_bounds_counterexample :
    (query "rust" none false none (some "2024-01-01T00:00:00Z")
        (some "2024-01-01T00:00:00Z") 1 [none]).toOption.map
      (fun st => st.reqs.length) = some 1 := by
  rfl

/-- C8 amended: with both bounds supplied (and no type filter, whose
own arity fault aborts separately), the query raises a ValueError
before issuing any page request exactly when since is strictly greater
than until; otherwise — including since equal to until — it proceeds
into the pagination loop. -/
theorem query_bounds_amended (qt : String) (link_filter : Bool) (mi : Option Nat)
    (s u : String) (fuel : Nat) (script : List (Option Response))
    (hs : s ≠ "") (hu : u ≠ "") :
    (strLt u s = true →
      query qt none link_filter mi (some s) (some u) fuel script =
        .error ("ValueError: since (" ++ s ++ ") must be < until (" ++ u ++ ")")) ∧
    (strLt u s = false →
      query qt none link_filter mi (some s) (some u) fuel script =
        .ok (runPages (pyStrip qt) mi fuel script (initState (some s) (some u) mi))) := by
  constructor
  · intro hlt
    unfold query checkBounds
    dsimp only
    rw [if_pos ⟨hs, hu, hlt⟩]
  · intro hge
    unfold query checkBounds
    dsimp only
    rw [if_neg (fun h => by rw [hge] at h; exact absurd h.2.2 (by simp))]
    rfl

/-- Witness for the amended C8: a strictly inverted pair is rejected. -/
theorem query_bounds_amended_witness :
    query "rust" none false none (some "2024-02-02") (some "2024-01-01") 1 [] =
      .error "ValueError: since (2024-02-02) must be < until (2024-01-01)" := by
  exact (query_bounds_amended "rust" false none "2024-02-02" "2024-01-01" 1 []
    (by decide) (by decide)).1 (by rfl)

-- ──────────── concrete runs of the paginator as written ────────────────

/-- Post a: newest record of page 1. -/
def c1postA : JVal := .obj [
  ("uri", .str "at://did:plc:a/app.bsky.feed.post/1"),
  ("author", .obj [("did", .str "did:plc:a")]),
  ("record", .obj [
    ("py_type", .str "app.bsky.feed.post"),
    ("created_at", .str "2024-06-01T10:30:00Z")])]

/-- Post b: oldest record, last on both pages. -/
def c1postB : JVal := .obj [
  ("uri", .str "at://did:plc:a/app.bsky.feed.post/2"),
  ("author", .obj [("did", .str "did:plc:a")]),
  ("record", .obj [
    ("py_type", .str "app.bsky.feed.post"),
    ("created_at", .str "2024-06-01T10:20:00Z")])]

/-- Post c: record of page 2, newer than b. -/
def c1postC : JVal := .obj [
  ("uri", .str "at://did:plc:a/app.bsky.feed.post/3"),
  ("author", .obj [("did", .str "did:plc:a")]),
  ("record", .obj [
    ("py_type", .str "app.bsky.feed.post"),
    ("created_at", .str "2024-06-01T10:25:00Z")])]

/-- First page of the backfill evaluation: a then b, with a cursor. -/
def c1page1 : Response := { posts := [c1postA, c1postB], cursor := some "c1" }

/-- Second page of the backfill evaluation, reverse-chronological, with
the cursor gone — the situation in which the claim demands a backfill
continuation. -/
def c1page2 : Response := { posts := [c1postC, c1postB], cursor := none }

/-- Final state of the backfill evaluation run: ample fuel and a script
that holds a cursor-less page with records behind page 1. -/
def c1final : QState :=
  runPages "rust" none 3 [some c1page1, some c1page2, none]
    (initState none none none)

/-- C1 code evaluation: the backfill continuation the claim describes
never happens.  The first converted record of page 1 already raises the
line-223 TypeError (the invalid link_filter keyword), the run ends with
exactly one page request issued and nothing accepted, and the
cursor-gone backfill of lines 232-241 — which would anyway use the last
converted record, not the oldest of the page — is never reached: no
second or third request exists to carry an until boundary. -/
theorem backfill_code_eval :
    c1final.crashed = true ∧
    c1final.reqs.length = 1 ∧
    c1final.results = [] ∧
    c1final.seen = ["at://did:plc:a/app.bsky.feed.post/1"] := by
  exact ⟨rfl, rfl, rfl, rfl⟩

/-- One page with two distinct records, used for the dedup evaluation. -/
def c3page : Response := { posts := [c1postA, c1postB], cursor := some "c3" }

/-- C3 code evaluation: the skip-if-seen-else-classify/filter/enrich/
sink pipeline the claim describes never executes.  The first
non-duplicate record enters the dedup set and is converted, then the
line-223 TypeError ends the run: the second record is never examined,
nothing is ever filtered, enriched or accepted, and the enriched output
is always empty — its uniqueness holds only vacuously. -/
theorem dedup_code_eval :
    (runPages "rust" none 2 [some c3page, none]
        (initState none none none)).results = [] ∧
    (runPages "rust" none 2 [some c3page, none]
        (initState none none none)).crashed = true ∧
    (runPages "rust" none 2 [some c3page, none]
        (initState none none none)).seen =
      ["at://did:plc:a/app.bsky.feed.post/1"] := by
  exact ⟨rfl, rfl, rfl⟩

/-- Final state of the cutoff evaluation run: one page holding an
in-range record (10:30) followed by a record at-or-before the notional
boundary 10:25, then an empty feed. -/
def c5final : QState :=
  runPages "rust" none 2
    [some { posts := [c1postA, c1postB], cursor := none }, none]
    (initState none none none)

/-- C5 code evaluation: the historical paginator has no cutoff handling
and cannot exercise any.  `historicalQuery.query` takes no cutoff_time
parameter and never compares record timestamps against a boundary
client-side; at the failing input the run issues exactly one page
request and then dies at the first record of the page on the line-223
TypeError, delivering nothing — neither the claimed stop at the
boundary nor the claimed record delivery happens. -/
theorem historical_cutoff_code_eval :
    c5final.results = [] ∧
    c5final.crashed = true ∧
    c5final.reqs.length = 1 ∧
    strLt "2024-06-01T10:20:00Z" "2024-06-01T10:25:00Z" = true := by
  exact ⟨rfl, rfl, rfl, rfl⟩

-- ──────────── batch sink: utils.dump_to_file (json format) ─────────────

/-- State of the json batch sink of `utils.dump_to_file` (lines
441-457): the pending queue, the batches already flushed to files, and
the item counter shared with the stop condition. -/
structure DumpState where
  queue   : List Item
  flushed : List (List Item)
  count   : Nat
deriving Repr

/-- Embedding of one `dump_to_file` call with an item, json format
(lines 441-457): enqueue, count, and flush the whole queue to a new
file when it has reached the batch size. -/
def dump_to_file_json (batch_size : Nat) (st : DumpState) (item : Item) : DumpState :=
  let queue := st.queue ++ [item]
  let count := st.count + 1
  if batch_size ≤ queue.length then
    { queue := [], flushed := st.flushed ++ [queue], count := count }
  else
    { queue := queue, flushed := st.flushed, count := count }

/-- Embedding of the final-flush call (`dump_to_file(None, ...,
final_flush=True)`, line 446): flush a non-empty queue, count
untouched. -/
def dump_final_flush (st : DumpState) : DumpState :=
  if st.queue.isEmpty then st
  else { queue := [], flushed := st.flushed ++ [st.queue], count := st.count }

/-- The sink fed with a list of accepted items in order. -/
def dumpFold (batch_size : Nat) (items : List Item) (st : DumpState) : DumpState :=
  items.foldl (dump_to_file_json batch_size) st

/-- Everything the sink holds: flushed batches in order plus the pending
queue. -/
def sinkContents (st : DumpState) : List Item :=
  st.flushed.flatten ++ st.queue

theorem dumpFold_spec (batch_size : Nat) (items : List Item) (st : DumpState) :
    (dumpFold batch_size items st).count = st.count + items.length ∧
    sinkContents (dumpFold batch_size items st) = sinkContents st ++ items := by
  induction items generalizing st with
  | nil => simp [dumpFold]
  | cons item rest ih =>
      have hstep : (dump_to_file_json batch_size st item).count = st.count + 1 ∧
          sinkContents (dump_to_file_json batch_size st item) = sinkContents st ++ [item] := by
        simp only [dump_to_file_json, sinkContents]
        split <;> simp
      have h := ih (dump_to_file_json batch_size st item)
      unfold dumpFold at h ⊢
      rw [List.foldl_cons]
      refine ⟨?_, ?_⟩
      · rw [h.1, hstep.1]
        simp [Nat.add_assoc, Nat.add_comm 1 rest.length]
      · rw [h.2, hstep.2, List.append_assoc]
        simp

theorem dump_final_flush_spec (st : DumpState) :
    (dump_final_flush st).count = st.count ∧
    sinkContents (dump_final_flush st) = sinkContents st := by
  unfold dump_final_flush sinkContents
  split
  · exact ⟨rfl, rfl⟩
  · simp

/-- One three-post page, used for the max-items evaluation. -/
def c2page : Response := { posts := [c1postA, c1postB, c1postC], cursor := some "c2" }

/-- C2 code evaluation: with max_items = 2 and three matching records on
the first page, the run accepts zero records, not two: the line-223
TypeError aborts it at the first non-duplicate record, before
`_handle_item` and before any sink call, so the counter stays at zero,
max_items is never reached, and the sink — which does count once per
record it is actually fed, for every batch size — is fed nothing. -/
theorem max_items_code_eval :
    (runPages "rust" (some 2) 2 [some c2page, none]
        (initState none none (some 2))).results = [] ∧
    (runPages "rust" (some 2) 2 [some c2page, none]
        (initState none none (some 2))).count = 0 ∧
    (runPages "rust" (some 2) 2 [some c2page, none]
        (initState none none (some 2))).crashed = true ∧
    ∀ batch_size : Nat,
      (dumpFold batch_size
        (runPages "rust" (some 2) 2 [some c2page, none]
          (initState none none (some 2))).results
        { queue := [], flushed := [], count := 0 }).count = 0 := by
  exact ⟨rfl, rfl, rfl, fun _ => rfl⟩
